import Mathlib

/-!
Shallow embedding of the Motion Analysis Engine of the motion-tracker
repository (authoritative copy: src/unnamed/part_000, first copy of the
component, lines 250-1546; src/src/App.jsx is an older near-duplicate).

JavaScript numbers are modelled as exact rationals; where the code can
produce the IEEE special values NaN and plus or minus infinity (the
calibration guard, the degenerate axis guard) a small JSNum wrapper type
carries them explicitly.  `x.toFixed(d)` followed by `parseFloat` is the
exact round-to-nearest-multiple-of-10^(-d) with ties taken toward the
larger value, which on rationals is `round (x * 10^d) / 10^d` with
Mathlib's `round` (floor of x + 1/2).
-/

namespace MotionTracker

/-- A tracked point as consumed by the engine: pixel coordinates and a
timestamp in seconds (source: elements of the `points` array). -/
structure Point where
  x : ℚ
  y : ℚ
  time : ℚ
deriving DecidableEq, Repr

instance : Inhabited Point := ⟨⟨0, 0, 0⟩⟩

/-- A derived position sample (source lines 1348-1353): zero-shifted time,
calibrated x and y, and the uncertainty column, each stored through
`parseFloat(v.toFixed(3))`. -/
structure PosSample where
  time : ℚ
  x : ℚ
  y : ℚ
  error : ℚ
deriving DecidableEq, Repr

instance : Inhabited PosSample := ⟨⟨0, 0, 0, 0⟩⟩

/-- A derived velocity sample (source lines 1431-1438); the source also
stores x, y and error fields that are always null on velocity rows, which
carry no information and are omitted here. -/
structure VelSample where
  time : ℚ
  vx : ℚ
  vy : ℚ
deriving DecidableEq, Repr

instance : Inhabited VelSample := ⟨⟨0, 0, 0⟩⟩

/-- The calibration and display settings read by the data pipeline.
cosA and sinA model Math.cos(originAngle) and Math.sin(originAngle)
(source line 1335): the rotation angle enters the computation only through
its cosine and sine, which are taken as the rational inputs here (for the
claims below only rotation 0, that is cosA = 1 and sinA = 0, is needed). -/
structure CalibCfg where
  origin : Option (ℚ × ℚ)
  cosA : ℚ
  sinA : ℚ
  pixelsPerMeter : Option ℚ
  zeroTime : Bool
  uncertaintyPx : ℚ
deriving DecidableEq

/-- Exact model of `parseFloat(v.toFixed(3))`: round to the nearest
multiple of 1/1000, ties toward the larger value (ECMAScript toFixed picks
the larger candidate integer on a tie). -/
def round3 (q : ℚ) : ℚ := (round (q * 1000) : ℤ) / 1000

/-- Exact model of `parseFloat(t.toFixed(4))` used for axis ticks. -/
def round4 (q : ℚ) : ℚ := (round (q * 10000) : ℤ) / 10000

/-- Source line 1332-1337: translate by the origin and rotate, negating the
rotated y component; the identity when no origin is set. -/
def getRotatedCoords (cfg : CalibCfg) (rawX rawY : ℚ) : ℚ × ℚ :=
  match cfg.origin with
  | none => (rawX, rawY)
  | some o =>
    let dx := rawX - o.1
    let dy := rawY - o.2
    (dx * cfg.cosA + dy * cfg.sinA, -(-dx * cfg.sinA + dy * cfg.cosA))

/-- Source line 1338: `pixelsPerMeter ? val / pixelsPerMeter : val`.
A pixelsPerMeter of 0 is falsy in JavaScript, hence the zero test. -/
def formatVal (cfg : CalibCfg) (val : ℚ) : ℚ :=
  match cfg.pixelsPerMeter with
  | none => val
  | some k => if k = 0 then val else val / k

/-- Source line 1340: `pixelsPerMeter ? uncertaintyPx / pixelsPerMeter : 0`. -/
def uncertaintyMeters (cfg : CalibCfg) : ℚ :=
  match cfg.pixelsPerMeter with
  | none => 0
  | some k => if k = 0 then 0 else cfg.uncertaintyPx / k

/-- Source line 1339: `points.length > 0 ? Math.min(...points.map(p => p.time)) : 0`. -/
def startTime (points : List Point) : ℚ :=
  match points with
  | [] => 0
  | p :: ps => ps.foldl (fun acc q => min acc q.time) p.time

/-- The sort relation used by the comparator `(a, b) => a.time - b.time`. -/
def timeLE (a b : Point) : Prop := a.time ≤ b.time

instance : DecidableRel timeLE := fun a b => inferInstanceAs (Decidable (a.time ≤ b.time))

instance : IsTotal Point timeLE := ⟨fun a b => le_total a.time b.time⟩

instance : IsTrans Point timeLE := ⟨fun _ _ _ h1 h2 => le_trans h1 h2⟩

/-- Source line 1344: `points.sort((a, b) => a.time - b.time)` - a stable
ascending-by-time sort (modelled by insertion sort, which is stable). -/
def sortedPoints (points : List Point) : List Point :=
  List.insertionSort timeLE points

/-- Source line 1344 again: Array.prototype.sort sorts the array IN PLACE
and returns that same array, so after the useMemo body has run, the
caller's `points` state array holds the sorted sequence.  This definition
is the content of the caller's array after the derivation has run. -/
def pointsAfterDerivation (points : List Point) : List Point :=
  sortedPoints points

/-- Source lines 1345-1354: the calibrated position series. -/
def positionData (cfg : CalibCfg) (points : List Point) : List PosSample :=
  (sortedPoints points).map fun p =>
    let r := getRotatedCoords cfg p.x p.y
    let adjustedTime := if cfg.zeroTime then p.time - startTime points else p.time
    { time := round3 adjustedTime
      x := round3 (formatVal cfg r.1)
      y := round3 (formatVal cfg r.2)
      error := round3 (uncertaintyMeters cfg) }

/-- Source lines 1362-1440, body of the velocity loop at index i over the
sorted array s (t0min is the precomputed startTime).  Returns the sample
pushed for index i, or none when the loop pushes nothing there.  The
source's `if (N < 2) break` (line 1364) exits before any push when fewer
than 3 points exist, which is the first guard here.  Out-of-range indices
never occur for the branches taken (getD supplies a default for totality). -/
def velAt (cfg : CalibCfg) (s : List Point) (t0min : ℚ) (i : ℕ) : Option VelSample :=
  if s.length < 3 then none else
  let N := s.length - 1
  let pCurrent := s.getD i default
  let adjustedTime := if cfg.zeroTime then pCurrent.time - t0min else pCurrent.time
  if i = 0 then
    -- FIRST POINT (Forward Difference), source lines 1373-1393
    let p0 := s.getD 0 default
    let p1 := s.getD 1 default
    let p2 := s.getD 2 default
    let r0 := getRotatedCoords cfg p0.x p0.y
    let r1 := getRotatedCoords cfg p1.x p1.y
    let r2 := getRotatedCoords cfg p2.x p2.y
    let dt := p1.time - p0.time
    if 1/10000 < dt then
      let vx := (-3 * formatVal cfg r0.1 + 4 * formatVal cfg r1.1 - formatVal cfg r2.1) / (2 * dt)
      let vy := (-3 * formatVal cfg r0.2 + 4 * formatVal cfg r1.2 - formatVal cfg r2.2) / (2 * dt)
      some ⟨round3 adjustedTime, round3 vx, round3 vy⟩
    else none
  else if i = N then
    -- LAST POINT (Backward Difference), source lines 1395-1413
    let pN := s.getD N default
    let pN1 := s.getD (N - 1) default
    let pN2 := s.getD (N - 2) default
    let rN := getRotatedCoords cfg pN.x pN.y
    let rN1 := getRotatedCoords cfg pN1.x pN1.y
    let rN2 := getRotatedCoords cfg pN2.x pN2.y
    let dt := pN.time - pN1.time
    if 1/10000 < dt then
      let vx := (3 * formatVal cfg rN.1 - 4 * formatVal cfg rN1.1 + formatVal cfg rN2.1) / (2 * dt)
      let vy := (3 * formatVal cfg rN.2 - 4 * formatVal cfg rN1.2 + formatVal cfg rN2.2) / (2 * dt)
      some ⟨round3 adjustedTime, round3 vx, round3 vy⟩
    else none
  else
    -- MIDDLE POINTS (Central Difference), source lines 1415-1428
    let pPrev := s.getD (i - 1) default
    let pNext := s.getD (i + 1) default
    let dt := pNext.time - pPrev.time
    if 1/10000 < dt then
      let rPrev := getRotatedCoords cfg pPrev.x pPrev.y
      let rNext := getRotatedCoords cfg pNext.x pNext.y
      let vx := (formatVal cfg rNext.1 - formatVal cfg rPrev.1) / dt
      let vy := (formatVal cfg rNext.2 - formatVal cfg rPrev.2) / dt
      some ⟨round3 adjustedTime, round3 vx, round3 vy⟩
    else none

/-- Source lines 1356-1440: the velocity series, one loop iteration per
index of the sorted array, pushing a sample exactly when the dt guard of
the applicable branch passes. -/
def velocityData (cfg : CalibCfg) (points : List Point) : List VelSample :=
  let s := sortedPoints points
  (List.range s.length).filterMap (velAt cfg s (startTime points))

/-- The pixel-to-physical transform of the spec (section 4.1): rotation
about the origin followed by the pixels-per-meter scaling, exactly the
composition the position and velocity pipelines apply to each coordinate. -/
def toPhysical (cfg : CalibCfg) (rawX rawY : ℚ) : ℚ × ℚ :=
  let r := getRotatedCoords cfg rawX rawY
  (formatVal cfg r.1, formatVal cfg r.2)

/-! ### JavaScript number values with IEEE specials

Needed where the source can produce or consume NaN or infinity: the
calibration guard (`parseFloat` of free text, division by the entered
distance) and the axis guard (`isFinite`). -/

/-- A JavaScript number: NaN, one of the infinities, or a finite value
(modelled exactly as a rational; the two signed zeros are identified). -/
inductive JSNum where
  | nan
  | posInf
  | negInf
  | num (q : ℚ)
deriving DecidableEq, Repr

/-- Model of the global isNaN test. -/
def JSNum.isNaN : JSNum → Bool
  | .nan => true
  | _ => false

/-- Model of Number.isFinite / the global isFinite test. -/
def JSNum.isFinite : JSNum → Bool
  | .num _ => true
  | _ => false

/-- Model of the comparison `v > 0` on a JavaScript number. -/
def JSNum.gtZero : JSNum → Bool
  | .nan => false
  | .posInf => true
  | .negInf => false
  | .num q => decide (0 < q)

/-- IEEE-754 division on JavaScript numbers over the exact-rational model
(signed zeros identified, so 1/0 is taken to the positive infinity). -/
def JSNum.div : JSNum → JSNum → JSNum
  | .nan, _ => .nan
  | _, .nan => .nan
  | .posInf, .posInf => .nan
  | .posInf, .negInf => .nan
  | .negInf, .posInf => .nan
  | .negInf, .negInf => .nan
  | .posInf, .num q => if 0 ≤ q then .posInf else .negInf
  | .negInf, .num q => if 0 ≤ q then .negInf else .posInf
  | .num _, .posInf => .num 0
  | .num _, .negInf => .num 0
  | .num a, .num b =>
    if b = 0 then (if a = 0 then .nan else if 0 < a then .posInf else .negInf)
    else .num (a / b)

/-- The pieces of component state touched by submitCalibration
(source lines 1186-1199). -/
structure CalibState where
  pixelsPerMeter : Option JSNum
  isCalibrating : Bool
  showInputModal : Bool
  isScaleVisible : Bool
deriving DecidableEq

/-- Source lines 1186-1199.  meters is `parseFloat(realDistanceInput)` (the
parsed user entry, which can be NaN or Infinity); distPx is the Euclidean
pixel distance between the two calibration points,
`Math.sqrt((p2.x-p1.x)^2 + (p2.y-p1.y)^2)`, taken here as a parameter
because square roots leave the rationals and no claim depends on its value.
The else branch only raises an alert, leaving the state unchanged. -/
def submitCalibration (meters : JSNum) (distPx : ℚ) (st : CalibState) : CalibState :=
  if !meters.isNaN && meters.gtZero then
    { st with
      pixelsPerMeter := some (JSNum.div (.num distPx) meters)
      isCalibrating := false
      showInputModal := false
      isScaleVisible := true }
  else st

/-! ### Nice-numbers axis scale (source lines 251-283) -/

/-- The axis scale record returned by calculateNiceScale. -/
structure NiceScale where
  min : ℚ
  max : ℚ
  ticks : List ℚ
  step : ℚ
deriving DecidableEq, Repr

/-- The degenerate-guard result of source line 252:
`{ min: 0, max: 10, ticks: [0, 10], step: 1 }`. -/
def defaultScale : NiceScale := ⟨0, 10, [0, 10], 1⟩

/-- Source lines 254-255: `padding = range === 0 ? 1 : range * 0.05`
(the zero branch is unreachable past the guard, kept for fidelity). -/
def nicePadding (minValue maxValue : ℚ) : ℚ :=
  let range := maxValue - minValue
  if range = 0 then 1 else range * (5/100)

/-- Source line 257: `paddedMin = (lockZero && minValue >= 0) ? 0 : minValue - padding`. -/
def nicePaddedMin (minValue maxValue : ℚ) (lockZero : Bool) : ℚ :=
  if lockZero ∧ 0 ≤ minValue then 0 else minValue - nicePadding minValue maxValue

/-- Source lines 267-271: snap the mantissa to a canonical multiple. -/
def snapMantissa (magStep : ℚ) : ℚ :=
  if magStep < 3/2 then 1
  else if magStep < 9/4 then 2
  else if magStep < 7/2 then 5/2
  else if magStep < 15/2 then 5
  else 10

/-- Source lines 261-273: rawStep = paddedRange / 6, its exact order of
magnitude (Math.floor of Math.log10, which on positive rationals is
Int.log 10), and the snapped nice step. -/
def niceStepOf (paddedRange : ℚ) : ℚ :=
  let rawStep := paddedRange / 6
  let mag : ℤ := Int.log 10 rawStep
  let magPow : ℚ := 10 ^ mag
  let magStep := rawStep / magPow
  snapMantissa magStep * magPow

/-- Source lines 251-283 on finite bounds; the non-finite part of the
guard lives in the JSNum wrapper below.  The tick loop
`for (t = niceMin; t <= niceMax + niceStep/100; t += niceStep)` pushes
exactly the values niceMin + k * niceStep for the integers k from 0
through floor(((niceMax - niceMin) + niceStep/100) / niceStep) whenever
niceStep > 0 (which holds past the guard), which is the closed form used
here; each pushed tick goes through `parseFloat(t.toFixed(4))`. -/
def calculateNiceScaleQ (minValue maxValue : ℚ) (lockZero : Bool) : NiceScale :=
  if minValue = maxValue then defaultScale
  else
    let paddedMin := nicePaddedMin minValue maxValue lockZero
    let paddedMax := maxValue + nicePadding minValue maxValue
    let niceStep := niceStepOf (paddedMax - paddedMin)
    let niceMin := ⌊paddedMin / niceStep⌋ * niceStep
    let niceMax := ⌈paddedMax / niceStep⌉ * niceStep
    let tickCount := (⌊(niceMax - niceMin + niceStep / 100) / niceStep⌋ + 1).toNat
    ⟨niceMin, niceMax,
      (List.range tickCount).map (fun k : ℕ => round4 (niceMin + (k : ℚ) * niceStep)),
      niceStep⟩

/-- Source lines 251-252 with the full degenerate guard:
`if (!isFinite(minValue) || !isFinite(maxValue) || minValue === maxValue)
return { min: 0, max: 10, ticks: [0, 10], step: 1 }` (the equality test is
delegated to calculateNiceScaleQ for finite arguments; NaN bounds fail the
isFinite test before `===` could see them). -/
def calculateNiceScale (minValue maxValue : JSNum) (lockZero : Bool) : NiceScale :=
  match minValue, maxValue with
  | .num x, .num y => calculateNiceScaleQ x y lockZero
  | _, _ => defaultScale

/-! ### Regression engine (source lines 1467-1538)

The JavaScript loops of solveLinearSystem are written as folds over the
same index ranges; `m.getD i []` and `List.set` model the array reads and
in-place writes (every access of the 3 by 3 use is in range). -/

/-- Read entry (i, j) of the augmented matrix. -/
def mget (A : List (List ℚ)) (i j : ℕ) : ℚ := (A.getD i []).getD j 0

/-- Write entry (i, j) of the augmented matrix. -/
def mset (A : List (List ℚ)) (i j : ℕ) (v : ℚ) : List (List ℚ) :=
  A.set i ((A.getD i []).set j v)

/-- Source line 1471-1472: the partial-pivot search over rows k > i,
keeping the first row attaining the strictly largest absolute value. -/
def pivotMaxRow (A : List (List ℚ)) (i n : ℕ) : ℕ :=
  ((List.range' (i+1) (n - (i+1))).foldl
    (fun acc k => if acc.1 < |mget A k i| then (|mget A k i|, k) else acc)
    (|mget A i i|, i)).2

/-- Source line 1473: swap rows maxRow and i entrywise over columns i..n. -/
def swapRows (A : List (List ℚ)) (maxRow i n : ℕ) : List (List ℚ) :=
  (List.range' i (n + 1 - i)).foldl
    (fun A k =>
      let tmp := mget A maxRow k
      let A := mset A maxRow k (mget A i k)
      mset A i k tmp) A

/-- Source line 1474: eliminate below the pivot; a pivot below 1e-10 in
absolute value makes the continue branch skip the row update. -/
def elimBelow (A : List (List ℚ)) (i n : ℕ) : List (List ℚ) :=
  (List.range' (i+1) (n - (i+1))).foldl
    (fun A k =>
      if |mget A i i| < 1/10000000000 then A
      else
        let c := -(mget A k i) / mget A i i
        (List.range' i (n + 1 - i)).foldl
          (fun A j => if i = j then mset A k j 0 else mset A k j (mget A k j + c * mget A i j))
          A)
    A

/-- Source lines 1476-1477: back-substitution from row n-1 down to row 0;
the fuel argument is the number of rows still to process, so fuel = i + 1
processes row i next.  A pivot below 1e-10 returns null. -/
def backSubFrom (n : ℕ) : ℕ → List (List ℚ) → List ℚ → Option (List ℚ)
  | 0, _, x => some x
  | (i+1), A, x =>
    if |mget A i i| < 1/10000000000 then none
    else
      let xi := mget A i n / mget A i i
      let x' := x.set i xi
      let A' := (List.range i).foldl (fun A k => mset A k n (mget A k n - mget A k i * xi)) A
      backSubFrom n i A' x'

/-- Source lines 1467-1479: Gaussian elimination with partial pivoting on
the augmented system, then back-substitution. -/
def solveLinearSystem (matrix : List (List ℚ)) (vector : List ℚ) : Option (List ℚ) :=
  let n := vector.length
  let A := List.zipWith (fun row v => row ++ [v]) matrix vector
  let A := (List.range n).foldl
    (fun A i =>
      let maxRow := pivotMaxRow A i n
      let A := swapRows A maxRow i n
      elimBelow A i n) A
  backSubFrom n n A (List.replicate n 0)

/-- The fit-model selector (source: the fitModel state, 'none' | 'linear'
| 'quadratic'). -/
inductive FitModel where
  | none
  | linear
  | quadratic
deriving DecidableEq

/-- The fitted coefficients: slope and intercept for a linear fit,
A, B, C for a quadratic fit. -/
inductive FitParams where
  | lin (m b : ℚ)
  | quad (A B C : ℚ)
deriving DecidableEq, Repr

/-- A fit result: coefficients and the goodness of fit r2 (the source also
carries a display string and the closure `fn`, which is determined by the
coefficients and modelled by FitResult.predict). -/
structure FitResult where
  params : FitParams
  r2 : ℚ
deriving DecidableEq, Repr

/-- The closed-form evaluator `fn` of the fitted polynomial
(source lines 1505 and 1520). -/
def FitResult.predict (r : FitResult) (x : ℚ) : ℚ :=
  match r.params with
  | .lin m b => m * x + b
  | .quad a b c => a * x * x + b * x + c

/-- Source lines 1481-1538.  activeData rows are (x, y) pairs for the two
selected plot fields.  The source's validData filter drops rows whose
selected entries are null or non-finite; in the exact rational model every
entry is a finite number, so the filter is the identity here.  When
ssTot = 0 the source's r2 is non-finite while rational division by zero
makes it 1 here; no claim touches that degenerate case. -/
def fitEquation (fitModel : FitModel) (activeData : List (ℚ × ℚ)) : Option FitResult :=
  if fitModel = .none ∨ activeData.length < 2 then Option.none else
  let validData := activeData
  if validData.length < 2 then Option.none else
  let xData := validData.map Prod.fst
  let yData := validData.map Prod.snd
  let n : ℚ := validData.length
  let sum : List ℚ → ℚ := fun arr => arr.foldl (· + ·) 0
  let result : Option FitParams :=
    match fitModel with
    | .linear =>
      let sumX := sum xData
      let sumY := sum yData
      let sumXY := (List.zipWith (fun x y => x * y) xData yData).foldl (· + ·) 0
      let sumXX := sum (xData.map fun x => x * x)
      let denominator := n * sumXX - sumX * sumX
      if 1/1000000000 < |denominator| then
        let slope := (n * sumXY - sumX * sumY) / denominator
        let intercept := (sumY - slope * sumX) / n
        some (.lin slope intercept)
      else Option.none
    | .quadratic =>
      if 2 < validData.length then
        let sx := sum xData
        let sx2 := sum (xData.map fun x => x * x)
        let sx3 := sum (xData.map fun x => x ^ 3)
        let sx4 := sum (xData.map fun x => x ^ 4)
        let sy := sum yData
        let sxy := (List.zipWith (fun x y => x * y) xData yData).foldl (· + ·) 0
        let sx2y := (List.zipWith (fun x y => x * x * y) xData yData).foldl (· + ·) 0
        match solveLinearSystem [[sx4, sx3, sx2], [sx3, sx2, sx], [sx2, sx, n]] [sx2y, sxy, sy] with
        | some [a, b, c] => some (.quad a b c)
        | _ => Option.none
      else Option.none
    | .none => Option.none
  match result with
  | Option.none => Option.none
  | some params =>
    let res : FitResult := ⟨params, 0⟩
    let yMean := sum yData / n
    let ssTot := yData.foldl (fun acc y => acc + (y - yMean) ^ 2) 0
    let ssRes := validData.foldl (fun acc d => acc + (d.2 - res.predict d.1) ^ 2) 0
    some ⟨params, 1 - ssRes / ssTot⟩

/-! ## Concrete configurations used by several theorems -/

/-- Identity calibration: no origin, rotation 0, no pixels-per-meter. -/
def cfgIdentity : CalibCfg := ⟨Option.none, 1, 0, Option.none, false, 0⟩

/-- Calibration with pixelsPerMeter = 10, no origin, rotation 0. -/
def cfgScale10 : CalibCfg := ⟨Option.none, 1, 0, some 10, false, 0⟩

/-! ## Gaussian-elimination evaluation lemmas

Step-by-step evaluation of solveLinearSystem on the two normal systems of
the quadratic-fit claims: the system of the collinear points
(0,0), (1,1), (2,2) and the system of the repeated-x points
(0,0), (0,0), (1,1). -/

set_option maxHeartbeats 1600000 in
lemma stepA1 : pivotMaxRow [[17, 9, 5, 9], [9, 5, 3, 5], [5, 3, 3, 3]] 0 3 = 0 := by
  norm_num [pivotMaxRow, mget, List.range', List.getD, abs_of_pos, abs_of_neg, abs_zero]

set_option maxHeartbeats 1600000 in
lemma stepA2 : swapRows [[17, 9, 5, 9], [9, 5, 3, 5], [5, 3, 3, 3]] 0 0 3
    = [[17, 9, 5, 9], [9, 5, 3, 5], [5, 3, 3, 3]] := by
  norm_num [swapRows, mset, mget, List.range', List.getD, List.set]

set_option maxHeartbeats 1600000 in
lemma stepA3 : elimBelow [[17, 9, 5, 9], [9, 5, 3, 5], [5, 3, 3, 3]] 0 3
    = [[17, 9, 5, 9], [0, 4/17, 6/17, 4/17], [0, 6/17, 26/17, 6/17]] := by
  norm_num [elimBelow, mset, mget, List.range', List.getD, List.set,
    abs_of_pos, abs_of_neg, abs_zero]

set_option maxHeartbeats 1600000 in
lemma stepA4 : pivotMaxRow [[17, 9, 5, 9], [0, 4/17, 6/17, 4/17], [0, 6/17, 26/17, 6/17]] 1 3
    = 2 := by
  norm_num [pivotMaxRow, mget, List.range', List.getD, abs_of_pos, abs_of_neg, abs_zero]

set_option maxHeartbeats 1600000 in
lemma stepA5 : swapRows [[17, 9, 5, 9], [0, 4/17, 6/17, 4/17], [0, 6/17, 26/17, 6/17]] 2 1 3
    = [[17, 9, 5, 9], [0, 6/17, 26/17, 6/17], [0, 4/17, 6/17, 4/17]] := by
  norm_num [swapRows, mset, mget, List.range', List.getD, List.set]

set_option maxHeartbeats 1600000 in
lemma stepA6 : elimBelow [[17, 9, 5, 9], [0, 6/17, 26/17, 6/17], [0, 4/17, 6/17, 4/17]] 1 3
    = [[17, 9, 5, 9], [0, 6/17, 26/17, 6/17], [0, 0, -(2/3), 0]] := by
  norm_num [elimBelow, mset, mget, List.range', List.getD, List.set,
    abs_of_pos, abs_of_neg, abs_zero]

set_option maxHeartbeats 1600000 in
lemma stepA7 : pivotMaxRow [[17, 9, 5, 9], [0, 6/17, 26/17, 6/17], [0, 0, -(2/3), 0]] 2 3
    = 2 := by
  norm_num [pivotMaxRow, mget, List.range', List.getD]

set_option maxHeartbeats 1600000 in
lemma stepA8 : swapRows [[17, 9, 5, 9], [0, 6/17, 26/17, 6/17], [0, 0, -(2/3), 0]] 2 2 3
    = [[17, 9, 5, 9], [0, 6/17, 26/17, 6/17], [0, 0, -(2/3), 0]] := by
  norm_num [swapRows, mset, mget, List.range', List.getD, List.set]

set_option maxHeartbeats 1600000 in
lemma stepA9 : elimBelow [[17, 9, 5, 9], [0, 6/17, 26/17, 6/17], [0, 0, -(2/3), 0]] 2 3
    = [[17, 9, 5, 9], [0, 6/17, 26/17, 6/17], [0, 0, -(2/3), 0]] := by
  norm_num [elimBelow, mset, mget, List.range', List.getD, List.set]

set_option maxHeartbeats 1600000 in
lemma stepA10 : backSubFrom 3 3 [[17, 9, 5, 9], [0, 6/17, 26/17, 6/17], [0, 0, -(2/3), 0]]
    [0, 0, 0] = some [0, 1, 0] := by
  norm_num [backSubFrom, mset, mget, List.range_succ, List.getD, List.set,
    abs_of_pos, abs_of_neg, abs_zero]

set_option maxHeartbeats 1600000 in
lemma solveCollinearSystem : solveLinearSystem [[17, 9, 5], [9, 5, 3], [5, 3, 3]] [9, 5, 3]
    = some [0, 1, 0] := by
  norm_num [solveLinearSystem, List.zipWith_cons_cons, List.zipWith_nil_left,
    List.zipWith_nil_right, List.range_succ, List.foldl_append, List.foldl_cons,
    List.foldl_nil, List.replicate, stepA1, stepA2, stepA3, stepA4, stepA5,
    stepA6, stepA7, stepA8, stepA9, stepA10]

set_option maxHeartbeats 1600000 in
lemma stepB1 : pivotMaxRow [[1, 1, 1, 1], [1, 1, 1, 1], [1, 1, 3, 1]] 0 3 = 0 := by
  norm_num [pivotMaxRow, mget, List.range', List.getD, abs_of_pos, abs_of_neg, abs_zero]

set_option maxHeartbeats 1600000 in
lemma stepB2 : swapRows [[1, 1, 1, 1], [1, 1, 1, 1], [1, 1, 3, 1]] 0 0 3
    = [[1, 1, 1, 1], [1, 1, 1, 1], [1, 1, 3, 1]] := by
  norm_num [swapRows, mset, mget, List.range', List.getD, List.set]

set_option maxHeartbeats 1600000 in
lemma stepB3 : elimBelow [[1, 1, 1, 1], [1, 1, 1, 1], [1, 1, 3, 1]] 0 3
    = [[1, 1, 1, 1], [0, 0, 0, 0], [0, 0, 2, 0]] := by
  norm_num [elimBelow, mset, mget, List.range', List.getD, List.set,
    abs_of_pos, abs_of_neg, abs_zero]

set_option maxHeartbeats 1600000 in
lemma stepB4 : pivotMaxRow [[1, 1, 1, 1], [0, 0, 0, 0], [0, 0, 2, 0]] 1 3 = 1 := by
  norm_num [pivotMaxRow, mget, List.range', List.getD]

set_option maxHeartbeats 1600000 in
lemma stepB5 : swapRows [[1, 1, 1, 1], [0, 0, 0, 0], [0, 0, 2, 0]] 1 1 3
    = [[1, 1, 1, 1], [0, 0, 0, 0], [0, 0, 2, 0]] := by
  norm_num [swapRows, mset, mget, List.range', List.getD, List.set]

set_option maxHeartbeats 1600000 in
lemma stepB6 : elimBelow [[1, 1, 1, 1], [0, 0, 0, 0], [0, 0, 2, 0]] 1 3
    = [[1, 1, 1, 1], [0, 0, 0, 0], [0, 0, 2, 0]] := by
  norm_num [elimBelow, mset, mget, List.range', List.getD, List.set,
    abs_of_pos, abs_of_neg, abs_zero]

set_option maxHeartbeats 1600000 in
lemma stepB7 : pivotMaxRow [[1, 1, 1, 1], [0, 0, 0, 0], [0, 0, 2, 0]] 2 3 = 2 := by
  norm_num [pivotMaxRow, mget, List.range', List.getD]

set_option maxHeartbeats 1600000 in
lemma stepB8 : swapRows [[1, 1, 1, 1], [0, 0, 0, 0], [0, 0, 2, 0]] 2 2 3
    = [[1, 1, 1, 1], [0, 0, 0, 0], [0, 0, 2, 0]] := by
  norm_num [swapRows, mset, mget, List.range', List.getD, List.set]

set_option maxHeartbeats 1600000 in
lemma stepB9 : elimBelow [[1, 1, 1, 1], [0, 0, 0, 0], [0, 0, 2, 0]] 2 3
    = [[1, 1, 1, 1], [0, 0, 0, 0], [0, 0, 2, 0]] := by
  norm_num [elimBelow, mset, mget, List.range', List.getD, List.set]

set_option maxHeartbeats 1600000 in
lemma stepB10 : backSubFrom 3 3 [[1, 1, 1, 1], [0, 0, 0, 0], [0, 0, 2, 0]] [0, 0, 0]
    = Option.none := by
  norm_num [backSubFrom, mset, mget, List.range_succ, List.getD, List.set,
    abs_of_pos, abs_of_neg, abs_zero]

set_option maxHeartbeats 1600000 in
lemma solveRepeatedSystem : solveLinearSystem [[1, 1, 1], [1, 1, 1], [1, 1, 3]] [1, 1, 1]
    = Option.none := by
  norm_num [solveLinearSystem, List.zipWith_cons_cons, List.zipWith_nil_left,
    List.zipWith_nil_right, List.range_succ, List.foldl_append, List.foldl_cons,
    List.foldl_nil, List.replicate, stepB1, stepB2, stepB3, stepB4, stepB5,
    stepB6, stepB7, stepB8, stepB9, stepB10]

set_option maxRecDepth 8000 in
set_option maxHeartbeats 1600000 in
lemma fitQuadCollinear : fitEquation .quadratic [(0, 0), (1, 1), (2, 2)]
    = some ⟨.quad 0 1 0, 1⟩ := by
  norm_num [fitEquation, solveCollinearSystem, FitResult.predict]
  exact fun h => nomatch h

set_option maxRecDepth 8000 in
set_option maxHeartbeats 1600000 in
lemma fitQuadRepeated : fitEquation .quadratic [(0, 0), (0, 0), (1, 1)] = Option.none := by
  norm_num [fitEquation, solveRepeatedSystem, FitResult.predict]

/-! ## Claim theorems -/

/-- C2: the end-to-end scenario.  Three tracked points (x = 0, t = 0),
(x = 10, t = 0.5), (x = 20, t = 1.0) in pixel space with
pixelsPerMeter = 10 and no origin or rotation give position x-values
0, 1, 2 meters, and all three velocity samples have vx = 2.0 m/s (the
forward, central and backward formulas agree on this linear, uniformly
sampled motion). -/
theorem C2_end_to_end_scenario :
    (positionData cfgScale10 [⟨0, 0, 0⟩, ⟨10, 0, 1/2⟩, ⟨20, 0, 1⟩]).map PosSample.x
      = [0, 1, 2] ∧
    (velocityData cfgScale10 [⟨0, 0, 0⟩, ⟨10, 0, 1/2⟩, ⟨20, 0, 1⟩]).map VelSample.vx
      = [2, 2, 2] := by
  norm_num [positionData, velocityData, velAt, cfgScale10, sortedPoints,
    List.insertionSort, List.orderedInsert, timeLE, startTime, getRotatedCoords,
    formatVal, uncertaintyMeters, round3, round_eq, List.range_succ,
    List.filterMap_cons, List.getD]

/-- C1, counterexample: the emitted vx is not the exact forward-difference
value.  For the points (0, t = 0), (1, t = 0.3), (2, t = 0.6) with identity
calibration the claim's formula gives (-3*0 + 4*1 - 2) / (2*0.3) = 10/3,
but the engine emits the 3-decimal rounding 3.333. -/
theorem C1_exact_formula_cex :
    ((velocityData cfgIdentity [⟨0, 0, 0⟩, ⟨1, 0, 3/10⟩, ⟨2, 0, 3/5⟩]).getD 0 default).vx ≠
      (-3 * (0 : ℚ) + 4 * 1 - 2) / (2 * (3/10 - 0)) := by
  norm_num [velocityData, velAt, cfgIdentity, sortedPoints,
    List.insertionSort, List.orderedInsert, timeLE, startTime, getRotatedCoords,
    formatVal, round3, round_eq, List.range_succ, List.filterMap_cons, List.getD]

/-- C9: the derivation is not free of side effects on its input.  On the
unsorted input [(time 1), (time 0)] the `points.sort(...)` call inside the
useMemo body reorders the caller's points array in place, so after the
position and velocity series are computed the input list is changed. -/
theorem C9_sort_mutates_input :
    pointsAfterDerivation [⟨0, 0, 1⟩, ⟨1, 1, 0⟩] ≠ [⟨0, 0, 1⟩, ⟨1, 1, 0⟩] ∧
    pointsAfterDerivation [⟨0, 0, 1⟩, ⟨1, 1, 0⟩] = [⟨1, 1, 0⟩, ⟨0, 0, 1⟩] := by
  norm_num [pointsAfterDerivation, sortedPoints, List.insertionSort,
    List.orderedInsert, timeLE]

/-- C3, counterexample: a quadratic fit over exactly 3 collinear points
with 3 distinct x-values does NOT return null.  On (0,0), (1,1), (2,2) the
normal system is nonsingular and the engine returns the degenerate
parabola A = 0, B = 1, C = 0 with r2 = 1. -/
theorem C3_collinear_quadratic_cex :
    fitEquation .quadratic [(0, 0), (1, 1), (2, 2)] = some ⟨.quad 0 1 0, 1⟩ ∧
    some (⟨.quad 0 1 0, 1⟩ : FitResult) ≠ Option.none :=
  ⟨fitQuadCollinear, fun h => nomatch h⟩

/-- C3, amended: a quadratic fit over exactly 3 collinear points returns
null only when the system really is degenerate.  With 3 distinct x-values
(collinear (0,0), (1,1), (2,2)) the normal system is nonsingular and the
exact interpolant A = 0, B = 1, C = 0 (r2 = 1) is returned; with a
repeated x-value ((0,0), (0,0), (1,1)) a back-substitution pivot falls
below 1e-10 and the fit is null. -/
theorem C3_quadratic_collinear_behavior :
    fitEquation .quadratic [(0, 0), (1, 1), (2, 2)] = some ⟨.quad 0 1 0, 1⟩ ∧
    fitEquation .quadratic [(0, 0), (0, 0), (1, 1)] = Option.none :=
  ⟨fitQuadCollinear, fitQuadRepeated⟩

/-- C5, counterexample: with an origin set and rotation 0 the transform
does not return (p - o)/k on the y component.  For p = (0, 1), o = (0, 0),
k = 1 the engine returns (0, -1), not (0, 1): the y component is negated
(screen y grows downward, physical y grows upward). -/
theorem C5_origin_transform_cex :
    toPhysical ⟨some (0, 0), 1, 0, some 1, false, 0⟩ 0 1 = (0, -1) ∧
    ((0 : ℚ), (-1 : ℚ)) ≠ ((0 - 0) / 1, (1 - 0) / 1) := by
  norm_num [toPhysical, getRotatedCoords, formatVal, Prod.ext_iff]

/-- C5, amended: for every pixel point and every positive k, the transform
with pixelsPerMeter = k and no origin returns p/k on both components; with
origin o and rotation 0 it returns ((p.x - o.x)/k, -((p.y - o.y)/k)) -
the claimed (p - o)/k on x but with the y component negated. -/
theorem C5_toPhysical_formulas (px py ox oy k : ℚ) (hk : 0 < k) :
    toPhysical ⟨Option.none, 1, 0, some k, false, 0⟩ px py = (px / k, py / k) ∧
    toPhysical ⟨some (ox, oy), 1, 0, some k, false, 0⟩ px py
      = ((px - ox) / k, -((py - oy) / k)) := by
  have hk0 : k ≠ 0 := ne_of_gt hk
  refine ⟨by simp [toPhysical, getRotatedCoords, formatVal, hk0], ?_⟩
  simp only [toPhysical, getRotatedCoords, formatVal, hk0, if_false, Prod.mk.injEq]
  constructor <;> ring_nf

/-- C5, witness: the amended transform equations at p = (2, 3),
o = (1, 1), k = 2. -/
theorem C5_toPhysical_formulas_witness :
    toPhysical ⟨Option.none, 1, 0, some 2, false, 0⟩ 2 3 = (2 / 2, 3 / 2) ∧
    toPhysical ⟨some (1, 1), 1, 0, some 2, false, 0⟩ 2 3
      = ((2 - 1) / 2, -((3 - 1) / 2)) :=
  C5_toPhysical_formulas 2 3 1 1 2 (by norm_num)

/-- C6, counterexample: a non-finite distance is not rejected.  Submitting
d_m = Infinity (parseFloat of the text Infinity) passes the
`!isNaN(meters) && meters > 0` guard, so the calibration state IS mutated:
pixelsPerMeter is set (to distPx / Infinity = 0) although it was unset. -/
theorem C6_infinite_distance_cex :
    (submitCalibration .posInf 5 ⟨Option.none, true, true, false⟩).pixelsPerMeter
      = some (.num 0) ∧
    (⟨Option.none, true, true, false⟩ : CalibState).pixelsPerMeter = Option.none := by
  norm_num [submitCalibration, JSNum.isNaN, JSNum.gtZero, JSNum.div]

/-- C6, amended: whenever the entered distance is NaN or not greater than
zero (rather than: not a finite positive number), the calibration is
rejected and no component state is mutated; a distance of plus infinity
instead passes the guard and sets pixelsPerMeter to 0. -/
theorem C6_calibration_rejection (meters : JSNum) (distPx : ℚ) (st : CalibState)
    (h : meters.isNaN = true ∨ meters.gtZero = false) :
    submitCalibration meters distPx st = st := by
  rcases h with h | h <;> simp [submitCalibration, h]

/-- C6, witness: a distance of -2 is rejected without touching the state. -/
theorem C6_calibration_rejection_witness :
    submitCalibration (.num (-2)) 5 ⟨some (.num 7), true, true, false⟩
      = ⟨some (.num 7), true, true, false⟩ :=
  C6_calibration_rejection _ _ _ (Or.inr (by norm_num [JSNum.gtZero]))

/-- C8, counterexample: the degenerate default scale has step 1, not a
step of 10: for equal bounds (5, 5) the guard returns
min 0, max 10, ticks [0, 10], step 1 (so the stored step is 1 even though
the two ticks are 10 apart). -/
theorem C8_default_step_cex :
    (calculateNiceScale (.num 5) (.num 5) false).step = 1 ∧ ((1 : ℚ) ≠ 10) := by
  norm_num [calculateNiceScale, calculateNiceScaleQ, defaultScale]

/-- C8, amended: whenever either bound is non-finite or the bounds are
equal, the result is the fixed record min 0, max 10, ticks [0, 10] with
the step field equal to 1 (the tick gap is 10, but the stored step is 1). -/
theorem C8_degenerate_default (a b : JSNum) (lockZero : Bool)
    (h : a.isFinite = false ∨ b.isFinite = false ∨ a = b) :
    calculateNiceScale a b lockZero = ⟨0, 10, [0, 10], 1⟩ := by
  cases a <;> cases b <;>
    simp_all [calculateNiceScale, calculateNiceScaleQ, defaultScale, JSNum.isFinite]

/-- C8, witness: a NaN lower bound yields the default scale. -/
theorem C8_degenerate_default_witness :
    calculateNiceScale .nan (.num 3) true = ⟨0, 10, [0, 10], 1⟩ :=
  C8_degenerate_default _ _ _ (Or.inl rfl)

/-! ## The spec-side velocity estimator (claim C1)

These definitions transcribe the claim's own words: f denotes the
calibrated coordinate (x or y independently), one velocity sample per
input sample, forward difference at the first sample, backward at the
last, central elsewhere, each guarded by its dt exceeding 1e-4, the
sample's time being its own (optionally zero-shifted) timestamp - with
the amendment that each emitted field carries the engine's 3-decimal
rounding. -/

/-- The calibrated x coordinate of a point: f(p) in the spec's formulas. -/
def calibratedX (cfg : CalibCfg) (p : Point) : ℚ :=
  formatVal cfg (getRotatedCoords cfg p.x p.y).1

/-- The calibrated y coordinate of a point. -/
def calibratedY (cfg : CalibCfg) (p : Point) : ℚ :=
  formatVal cfg (getRotatedCoords cfg p.x p.y).2

/-- The claim's velocity sample at index i of a time-sorted input. -/
def specVelAt (cfg : CalibCfg) (points : List Point) (i : ℕ) : Option VelSample :=
  let N := points.length - 1
  let p := fun j => points.getD j default
  let sampleTime := round3 (if cfg.zeroTime then (p i).time - startTime points else (p i).time)
  if i = 0 then
    let dt := (p 1).time - (p 0).time
    if 1/10000 < dt then
      some ⟨sampleTime,
        round3 ((-3 * calibratedX cfg (p 0) + 4 * calibratedX cfg (p 1)
          - calibratedX cfg (p 2)) / (2 * dt)),
        round3 ((-3 * calibratedY cfg (p 0) + 4 * calibratedY cfg (p 1)
          - calibratedY cfg (p 2)) / (2 * dt))⟩
    else none
  else if i = N then
    let dt := (p N).time - (p (N - 1)).time
    if 1/10000 < dt then
      some ⟨sampleTime,
        round3 ((3 * calibratedX cfg (p N) - 4 * calibratedX cfg (p (N - 1))
          + calibratedX cfg (p (N - 2))) / (2 * dt)),
        round3 ((3 * calibratedY cfg (p N) - 4 * calibratedY cfg (p (N - 1))
          + calibratedY cfg (p (N - 2))) / (2 * dt))⟩
    else none
  else
    let dt := (p (i + 1)).time - (p (i - 1)).time
    if 1/10000 < dt then
      some ⟨sampleTime,
        round3 ((calibratedX cfg (p (i + 1)) - calibratedX cfg (p (i - 1))) / dt),
        round3 ((calibratedY cfg (p (i + 1)) - calibratedY cfg (p (i - 1))) / dt)⟩
    else none

/-- The claim's velocity series: one (guarded) sample per input sample. -/
def specVelocity (cfg : CalibCfg) (points : List Point) : List VelSample :=
  (List.range points.length).filterMap (specVelAt cfg points)

/-- C1, amended: for every input of at least 3 samples sorted ascending by
time and every calibration, the engine's velocity series is exactly the
claim's series - forward difference at the first sample, backward at the
last, central in between, one sample per input whenever its dt exceeds
1e-4, the time being the (optionally zero-shifted) input timestamp - with
every emitted time, vx and vy rounded to 3 decimal places
(parseFloat(v.toFixed(3))), which the original claim does not mention. -/
theorem C1_velocity_formula_refinement (cfg : CalibCfg) (points : List Point)
    (hsort : List.Sorted timeLE points) (hlen : 3 ≤ points.length) :
    velocityData cfg points = specVelocity cfg points := by
  have hs : sortedPoints points = points := List.Sorted.insertionSort_eq hsort
  simp only [velocityData, specVelocity, sortedPoints] at hs ⊢
  rw [hs]
  apply List.filterMap_congr
  intro i hi
  have h3 : ¬ (points.length < 3) := by omega
  simp only [velAt, specVelAt, if_neg h3, calibratedX, calibratedY]

/-- C1, witness: the refinement at a concrete 3-point input. -/
theorem C1_velocity_formula_refinement_witness :
    velocityData cfgIdentity [⟨0, 0, 0⟩, ⟨1, 0, 3/10⟩, ⟨2, 0, 3/5⟩]
      = specVelocity cfgIdentity [⟨0, 0, 0⟩, ⟨1, 0, 3/10⟩, ⟨2, 0, 3/5⟩] :=
  C1_velocity_formula_refinement _ _
    (by norm_num [List.sorted_cons, timeLE]) (by norm_num)

/-- Any in-range getD value is a member of the list. -/
lemma getD_mem_of_lt {l : List Point} {i : ℕ} (h : i < l.length) (d : Point) :
    l.getD i d ∈ l := by
  simp only [List.getD_eq_getElem?_getD, List.getElem?_eq_getElem h, Option.getD_some]
  exact List.getElem_mem h

/-- C4, counterexample: on the strictly increasing but unevenly spaced
times 0, 1, 3 with x(t) = t (so v0 = 0, a = 1), the first (forward
difference) velocity sample is 0.5, off the true slope 1 by 0.5 - far
beyond the claimed ~1e-9 tolerance.  The uniform-spacing forward formula
is not exact for linear motion at unevenly spaced boundary samples. -/
theorem C4_irregular_boundary_cex :
    |((velocityData cfgIdentity [⟨0, 0, 0⟩, ⟨1, 0, 1⟩, ⟨3, 0, 3⟩]).getD 0 default).vx - 1|
      = 1/2 := by
  norm_num [velocityData, velAt, cfgIdentity, sortedPoints,
    List.insertionSort, List.orderedInsert, timeLE, startTime, getRotatedCoords,
    formatVal, round3, round_eq, List.range_succ, List.filterMap_cons, List.getD,
    abs_of_pos, abs_of_neg, abs_zero]

/-- C4, amended: for every input of at least 3 position samples with
strictly increasing times whose calibrated x coordinate follows
x(t) = v0 + a*t, every emitted velocity sample has vx equal to a rounded
to 3 decimals, provided the first three and the last three sample times
are each evenly spaced; the interior (central difference) samples need no
such proviso, so interior spacing may be arbitrary. -/
theorem C4_linear_motion_velocity (cfg : CalibCfg) (points : List Point) (v0 a : ℚ)
    (hsort : List.Pairwise (fun p q => p.time < q.time) points)
    (hlen : 3 ≤ points.length)
    (hlin : ∀ p ∈ points, calibratedX cfg p = v0 + a * p.time)
    (heven0 : (points.getD 1 default).time - (points.getD 0 default).time
            = (points.getD 2 default).time - (points.getD 1 default).time)
    (hevenN : (points.getD (points.length - 1) default).time
            - (points.getD (points.length - 2) default).time
            = (points.getD (points.length - 2) default).time
            - (points.getD (points.length - 3) default).time) :
    ∀ s ∈ velocityData cfg points, s.vx = round3 a := by
  have hsorted : List.Sorted timeLE points := hsort.imp (fun h => le_of_lt h)
  have hs : List.insertionSort timeLE points = points := hsorted.insertionSort_eq
  intro s hmem
  obtain ⟨st, svx, svy⟩ := s
  show svx = round3 a
  simp only [velocityData, sortedPoints, hs, List.mem_filterMap] at hmem
  obtain ⟨i, hi_mem, hi_eq⟩ := hmem
  have hi : i < points.length := List.mem_range.1 hi_mem
  have h3 : ¬ (points.length < 3) := by omega
  simp only [velAt, if_neg h3] at hi_eq
  by_cases h0 : i = 0
  · rw [if_pos h0] at hi_eq
    split at hi_eq
    swap
    · exact Option.noConfusion hi_eq
    rename_i hdt
    have e0 := hlin _ (getD_mem_of_lt (show 0 < points.length by omega) default)
    have e1 := hlin _ (getD_mem_of_lt (show 1 < points.length by omega) default)
    have e2 := hlin _ (getD_mem_of_lt (show 2 < points.length by omega) default)
    simp only [calibratedX] at e0 e1 e2
    simp only [Option.some.injEq, VelSample.mk.injEq] at hi_eq
    obtain ⟨ht, hvx, hvy⟩ := hi_eq
    rw [← hvx]
    congr 1
    have hne : (points.getD 1 default).time - (points.getD 0 default).time ≠ 0 :=
      ne_of_gt (lt_trans (by norm_num) hdt)
    have hne2 : 2 * ((points.getD 1 default).time - (points.getD 0 default).time) ≠ 0 :=
      mul_ne_zero two_ne_zero hne
    have ht2 : (points.getD 2 default).time
        = 2 * (points.getD 1 default).time - (points.getD 0 default).time := by
      linarith
    rw [e0, e1, e2, div_eq_iff hne2, ht2]
    ring
  · by_cases hN : i = points.length - 1
    · rw [if_neg h0, if_pos hN] at hi_eq
      rw [show points.length - 1 - 1 = points.length - 2 from by omega,
          show points.length - 1 - 2 = points.length - 3 from by omega] at hi_eq
      split at hi_eq
      swap
      · exact Option.noConfusion hi_eq
      rename_i hdt
      have eN := hlin _
        (getD_mem_of_lt (show points.length - 1 < points.length by omega) default)
      have eN1 := hlin _
        (getD_mem_of_lt (show points.length - 2 < points.length by omega) default)
      have eN2 := hlin _
        (getD_mem_of_lt (show points.length - 3 < points.length by omega) default)
      simp only [calibratedX] at eN eN1 eN2
      simp only [Option.some.injEq, VelSample.mk.injEq] at hi_eq
      obtain ⟨ht, hvx, hvy⟩ := hi_eq
      rw [← hvx]
      congr 1
      have hne : (points.getD (points.length - 1) default).time
          - (points.getD (points.length - 2) default).time ≠ 0 :=
        ne_of_gt (lt_trans (by norm_num) hdt)
      have hne2 : 2 * ((points.getD (points.length - 1) default).time
          - (points.getD (points.length - 2) default).time) ≠ 0 :=
        mul_ne_zero two_ne_zero hne
      have htN2 : (points.getD (points.length - 3) default).time
          = 2 * (points.getD (points.length - 2) default).time
            - (points.getD (points.length - 1) default).time := by
        linarith
      rw [eN, eN1, eN2, div_eq_iff hne2, htN2]
      ring
    · rw [if_neg h0, if_neg hN] at hi_eq
      split at hi_eq
      swap
      · exact Option.noConfusion hi_eq
      rename_i hdt
      have hip := hlin _ (getD_mem_of_lt (show i + 1 < points.length by omega) default)
      have him := hlin _ (getD_mem_of_lt (show i - 1 < points.length by omega) default)
      simp only [calibratedX] at hip him
      simp only [Option.some.injEq, VelSample.mk.injEq] at hi_eq
      obtain ⟨ht, hvx, hvy⟩ := hi_eq
      rw [← hvx]
      congr 1
      have hne : (points.getD (i + 1) default).time
          - (points.getD (i - 1) default).time ≠ 0 :=
        ne_of_gt (lt_trans (by norm_num) hdt)
      rw [hip, him, div_eq_iff hne]
      ring

/-- C4, witness: on evenly spaced points of x(t) = 2t the first emitted
velocity sample has vx = 2 (rounded to 3 decimals). -/
theorem C4_linear_motion_velocity_witness :
    ((velocityData cfgIdentity [⟨0, 0, 0⟩, ⟨1, 0, 1/2⟩, ⟨2, 0, 1⟩]).getD 0 default).vx
      = round3 2 :=
  C4_linear_motion_velocity cfgIdentity [⟨0, 0, 0⟩, ⟨1, 0, 1/2⟩, ⟨2, 0, 1⟩] 0 2
    (by norm_num [List.pairwise_cons])
    (by norm_num)
    (by
      intro p hp
      simp only [List.mem_cons, List.not_mem_nil, or_false] at hp
      rcases hp with rfl | rfl | rfl <;>
        norm_num [calibratedX, getRotatedCoords, formatVal, cfgIdentity])
    (by norm_num [List.getD])
    (by norm_num [List.getD])
    _
    (by
      norm_num [velocityData, velAt, cfgIdentity, sortedPoints,
        List.insertionSort, List.orderedInsert, timeLE, startTime, getRotatedCoords,
        formatVal, round3, round_eq, List.range_succ, List.filterMap_cons, List.getD])

/-- Rounding to 3 decimals is monotone. -/
lemma round3_mono {q r : ℚ} (h : q ≤ r) : round3 q ≤ round3 r := by
  have h1 : round (q * 1000) ≤ round (r * 1000) := by
    rw [round_eq, round_eq]
    exact Int.floor_mono (by linarith)
  have h2 : ((round (q * 1000) : ℤ) : ℚ) ≤ ((round (r * 1000) : ℤ) : ℚ) := by
    exact_mod_cast h1
  unfold round3
  linarith

/-- In-range getD agrees with list indexing. -/
lemma getD_eq_getElem_of_lt {l : List Point} {i : ℕ} (h : i < l.length) (d : Point) :
    l.getD i d = l[i] := by
  simp [List.getD_eq_getElem?_getD, List.getElem?_eq_getElem h]

/-- Whatever branch emitted it, a velocity sample's time is the rounded
(optionally zero-shifted) timestamp of its own input sample. -/
lemma velAt_time {cfg : CalibCfg} {s : List Point} {t0 : ℚ} {i : ℕ} {v : VelSample}
    (h : velAt cfg s t0 i = some v) :
    v.time = round3 (if cfg.zeroTime then (s.getD i default).time - t0
      else (s.getD i default).time) := by
  simp only [velAt] at h
  split at h
  · exact Option.noConfusion h
  · split at h
    · split at h
      · injection h with h'
        subst h'
        rfl
      · exact Option.noConfusion h
    · split at h
      · split at h
        · injection h with h'
          subst h'
          rfl
        · exact Option.noConfusion h
      · split at h
        · injection h with h'
          subst h'
          rfl
        · exact Option.noConfusion h

/-- C10: for every input point list and every combination of calibration,
rotation, and zero-time settings, the derived series come out in time
order: position sample times and velocity sample times are both
non-decreasing. -/
theorem C10_series_time_ordered (cfg : CalibCfg) (points : List Point) :
    List.Sorted (· ≤ ·) ((positionData cfg points).map PosSample.time) ∧
    List.Sorted (· ≤ ·) ((velocityData cfg points).map VelSample.time) := by
  have hsorted : List.Sorted timeLE (sortedPoints points) :=
    List.sorted_insertionSort timeLE points
  have hmono : ∀ {t1 t2 : ℚ}, t1 ≤ t2 →
      round3 (if cfg.zeroTime then t1 - startTime points else t1)
        ≤ round3 (if cfg.zeroTime then t2 - startTime points else t2) := by
    intro t1 t2 h
    apply round3_mono
    split <;> linarith
  constructor
  · simp only [positionData, List.map_map, List.Sorted]
    exact List.Pairwise.map _ (fun a b hab => hmono hab) hsorted
  · simp only [velocityData, List.map_filterMap, List.Sorted]
    rw [List.pairwise_filterMap, List.pairwise_iff_getElem]
    intro i j hi hj hij
    simp only [List.getElem_range]
    rw [List.length_range] at hi hj
    intro x hx y hy
    rw [Option.mem_map] at hx hy
    obtain ⟨vx1, hvx1, rfl⟩ := hx
    obtain ⟨vy1, hvy1, rfl⟩ := hy
    rw [Option.mem_def] at hvx1 hvy1
    rw [velAt_time hvx1, velAt_time hvy1]
    apply hmono
    rw [getD_eq_getElem_of_lt hi, getD_eq_getElem_of_lt hj]
    exact List.pairwise_iff_getElem.mp hsorted i j hi hj hij


/-- Characterization of the exact base-10 order of magnitude. -/
lemma intLog10_eq (q : ℚ) (e : ℤ) (h0 : 0 < q) (h1 : (10:ℚ)^e ≤ q)
    (h2 : q < (10:ℚ)^(e+1)) : Int.log 10 q = e := by
  have lo : e ≤ Int.log 10 q := (Int.zpow_le_iff_le_log (by norm_num) h0).mp h1
  have hi : Int.log 10 q < e + 1 := (Int.lt_zpow_iff_log_lt (by norm_num) h0).mp h2
  omega

/-- The snapped mantissa stays within (2/3 m, 10/7 m] for m in [1, 10). -/
lemma snapMantissa_bounds {m : ℚ} (h1 : 1 ≤ m) (h2 : m < 10) :
    7 * snapMantissa m ≤ 10 * m ∧ 2 * m < 3 * snapMantissa m := by
  unfold snapMantissa
  split_ifs <;> constructor <;> linarith

/-- The nice step is positive and lies in (paddedRange/9, 5 paddedRange/21]. -/
lemma niceStepOf_bounds {pR : ℚ} (h : 0 < pR) :
    0 < niceStepOf pR ∧ pR / 9 < niceStepOf pR ∧ niceStepOf pR ≤ 5 / 21 * pR := by
  simp only [niceStepOf]
  have hraw : 0 < pR / 6 := by positivity
  set rawStep := pR / 6 with hrdef
  set mag := Int.log 10 rawStep with hmagdef
  set magPow := (10:ℚ) ^ mag with hmdef
  have hmagPow : (0:ℚ) < magPow := zpow_pos (by norm_num) _
  have hlow : magPow ≤ rawStep := Int.zpow_log_le_self (by norm_num) hraw
  have hhigh : rawStep < 10 * magPow := by
    have h' : rawStep < (10:ℚ) ^ (mag + 1) := by
      exact_mod_cast Int.lt_zpow_succ_log_self (show 1 < 10 by norm_num) rawStep
    rw [zpow_add_one₀ (by norm_num : (10:ℚ) ≠ 0)] at h'
    rw [hmdef]
    linarith
  set m := rawStep / magPow with hmmdef
  have hm1 : 1 ≤ m := (one_le_div hmagPow).mpr hlow
  have hm2 : m < 10 := (div_lt_iff hmagPow).mpr hhigh
  obtain ⟨hs1, hs2⟩ := snapMantissa_bounds hm1 hm2
  have hmm : m * magPow = rawStep := div_mul_cancel₀ _ (ne_of_gt hmagPow)
  have hsnap : 0 < snapMantissa m := by linarith
  refine ⟨mul_pos hsnap hmagPow, ?_, ?_⟩
  · nlinarith [mul_lt_mul_of_pos_right hs2 hmagPow]
  · nlinarith [mul_le_mul_of_nonneg_right hs1 (le_of_lt hmagPow)]


/-- Indexing into the generated tick list. -/
lemma ticks_getD {n : ℕ} {f : ℕ → ℚ} {k : ℕ} (hk : k < n) :
    ((List.range n).map f).getD k 0 = f k := by
  simp [List.getD_eq_getElem?_getD, List.getElem?_map, List.getElem?_range hk]

/-- C7, amended: for every pair of finite bounds with min < max (and either
lock-zero setting), the returned scale contains the data range
(scale.min is at most min and scale.max at least max), the tick count lies
between 2 and 11 (the original claim's "about 9" can be exceeded: 11 ticks
occur), and consecutive ticks differ by exactly scale.step PROVIDED the
step is an integer multiple of 1e-4 - each stored tick is the 4-decimal
rounding parseFloat(t.toFixed(4)) of niceMin + k*step, which is exact only
then; for smaller steps the rounding can distort or collapse tick gaps. -/
theorem C7_nice_scale_bounds (mn mx : ℚ) (lock : Bool) (h : mn < mx) :
    (calculateNiceScale (.num mn) (.num mx) lock).min ≤ mn ∧
    mx ≤ (calculateNiceScale (.num mn) (.num mx) lock).max ∧
    2 ≤ (calculateNiceScale (.num mn) (.num mx) lock).ticks.length ∧
    (calculateNiceScale (.num mn) (.num mx) lock).ticks.length ≤ 11 ∧
    (((calculateNiceScale (.num mn) (.num mx) lock).step * 10000).den = 1 →
      ∀ i, i + 1 < (calculateNiceScale (.num mn) (.num mx) lock).ticks.length →
        (calculateNiceScale (.num mn) (.num mx) lock).ticks.getD (i+1) 0
          - (calculateNiceScale (.num mn) (.num mx) lock).ticks.getD i 0
          = (calculateNiceScale (.num mn) (.num mx) lock).step) := by
  have hguard : ¬ (mn = mx) := ne_of_lt h
  simp only [calculateNiceScale, calculateNiceScaleQ, if_neg hguard]
  have hpad : 0 < nicePadding mn mx := by
    unfold nicePadding
    rw [if_neg (by intro h0; exact hguard (by linarith))]
    have : 0 < mx - mn := by linarith
    positivity
  have hpmin : nicePaddedMin mn mx lock ≤ mn := by
    unfold nicePaddedMin
    split_ifs with hc
    · exact hc.2
    · linarith
  set pMin := nicePaddedMin mn mx lock with hpminDef
  set pMax := mx + nicePadding mn mx with hpmaxDef
  have hpr : 0 < pMax - pMin := by
    rw [hpmaxDef]
    linarith
  obtain ⟨hs_pos, hs_lo, hs_hi⟩ := niceStepOf_bounds hpr
  set s := niceStepOf (pMax - pMin) with hsDef
  set F := ⌊pMin / s⌋ with hFDef
  set C := ⌈pMax / s⌉ with hCDef
  have hFle : (F : ℚ) * s ≤ pMin := by
    have h1 : (F : ℚ) ≤ pMin / s := Int.floor_le _
    have := mul_le_mul_of_nonneg_right h1 (le_of_lt hs_pos)
    rwa [div_mul_cancel₀ _ (ne_of_gt hs_pos)] at this
  have hCge : pMax ≤ (C : ℚ) * s := by
    have h1 : pMax / s ≤ (C : ℚ) := Int.le_ceil _
    have := mul_le_mul_of_nonneg_right h1 (le_of_lt hs_pos)
    rwa [div_mul_cancel₀ _ (ne_of_gt hs_pos)] at this
  have hdivsub : pMax / s - pMin / s = (pMax - pMin) / s := (sub_div _ _ _).symm
  have hratio_lo : (21:ℚ)/5 ≤ (pMax - pMin) / s := by
    rw [le_div_iff hs_pos]
    linarith
  have hratio_hi : (pMax - pMin) / s < 9 := by
    rw [div_lt_iff hs_pos]
    linarith
  have hCF_lo : (5:ℤ) ≤ C - F := by
    have h1 : pMax / s ≤ (C : ℚ) := Int.le_ceil _
    have h2 : (F : ℚ) ≤ pMin / s := Int.floor_le _
    have h4 : (4:ℚ) < (C : ℚ) - (F : ℚ) := by linarith
    have : (4:ℤ) < C - F := by exact_mod_cast h4
    omega
  have hCF_hi : C - F ≤ 10 := by
    have h1 : (C : ℚ) < pMax / s + 1 := Int.ceil_lt_add_one _
    have h2 : pMin / s - 1 < (F : ℚ) := Int.sub_one_lt_floor _
    have h4 : (C : ℚ) - (F : ℚ) < 11 := by linarith
    have : (C - F : ℤ) < 11 := by exact_mod_cast h4
    omega
  have htc : ⌊((C:ℚ) * s - (F:ℚ) * s + s / 100) / s⌋ + 1 = C - F + 1 := by
    have hcalc : ((C:ℚ) * s - (F:ℚ) * s + s / 100) / s = ((C - F : ℤ) : ℚ) + 1/100 := by
      field_simp
      ring
    rw [hcalc, Int.floor_int_add]
    norm_num
  refine ⟨?_, ?_, ?_, ?_, ?_⟩
  · exact le_trans hFle hpmin
  · exact le_trans (by linarith [hpad] : mx ≤ pMax) hCge
  · rw [List.length_map, List.length_range, htc]
    omega
  · rw [List.length_map, List.length_range, htc]
    omega
  · intro hden i hi
    rw [List.length_map, List.length_range, htc] at hi
    have hi1 : i + 1 < (C - F + 1).toNat := hi
    have hi0 : i < (C - F + 1).toNat := by omega
    rw [ticks_getD (by rw [htc]; exact hi1), ticks_getD (by rw [htc]; exact hi0)]
    have hZ : (((s * 10000).num : ℤ) : ℚ) = s * 10000 := (Rat.den_eq_one_iff _).mp hden
    have hexact : ∀ k : ℕ, round4 ((F:ℚ) * s + (k:ℚ) * s) = (F:ℚ) * s + (k:ℚ) * s := by
      intro k
      unfold round4
      have hcast : ((F:ℚ) * s + (k:ℚ) * s) * 10000
          = (((F + (k:ℤ)) * (s * 10000).num : ℤ) : ℚ) := by
        push_cast [hZ]
        ring
      rw [hcast, round_intCast]
      push_cast [hZ]
      field_simp
      ring
    rw [hexact, hexact]
    push_cast
    ring

/-- C7, witness: the amended properties at the bounds (0, 10). -/
theorem C7_nice_scale_bounds_witness :
    (calculateNiceScale (.num 0) (.num 10) false).min ≤ 0 ∧
    (10:ℚ) ≤ (calculateNiceScale (.num 0) (.num 10) false).max ∧
    2 ≤ (calculateNiceScale (.num 0) (.num 10) false).ticks.length ∧
    (calculateNiceScale (.num 0) (.num 10) false).ticks.length ≤ 11 ∧
    (((calculateNiceScale (.num 0) (.num 10) false).step * 10000).den = 1 →
      ∀ i, i + 1 < (calculateNiceScale (.num 0) (.num 10) false).ticks.length →
        (calculateNiceScale (.num 0) (.num 10) false).ticks.getD (i+1) 0
          - (calculateNiceScale (.num 0) (.num 10) false).ticks.getD i 0
          = (calculateNiceScale (.num 0) (.num 10) false).step) :=
  C7_nice_scale_bounds 0 10 false (by norm_num)


set_option maxHeartbeats 1600000 in
/-- Full evaluation of the scale at the bounds (0, 0.00015): the step is
2.5e-5 and the 4-decimal tick rounding collapses the first gaps to 0. -/
lemma nsEval1 : calculateNiceScale (.num 0) (.num (3/20000)) false
    = ⟨-(1/40000), 7/40000,
       [0, 0, 0, 1/10000, 1/10000, 1/10000, 1/10000, 1/5000, 1/5000], 1/40000⟩ := by
  have hlog : Int.log 10 ((11:ℚ)/400000) = -5 :=
    intLog10_eq _ _ (by norm_num) (by norm_num) (by norm_num)
  have hceil : ⌈(63:ℚ)/10⌉ = 7 := by
    rw [Int.ceil_eq_iff]
    norm_num
  have h9 : Int.toNat 9 = 9 := rfl
  norm_num [calculateNiceScale, calculateNiceScaleQ, nicePadding, nicePaddedMin,
    niceStepOf, snapMantissa, round4, round_eq, hlog, hceil, List.range_succ, h9]

set_option maxHeartbeats 1600000 in
/-- Full evaluation of the scale at the bounds (199/220, 1979/220): the
padded range is 0.5..9.4 with step 1, giving the 11 ticks 0..10. -/
lemma nsEval2 : calculateNiceScale (.num (199/220)) (.num (1979/220)) false
    = ⟨0, 10, [0, 1, 2, 3, 4, 5, 6, 7, 8, 9, 10], 1⟩ := by
  have hlog : Int.log 10 ((89:ℚ)/60) = 0 :=
    intLog10_eq _ _ (by norm_num) (by norm_num) (by norm_num)
  have hceil : ⌈(47:ℚ)/5⌉ = 10 := by
    rw [Int.ceil_eq_iff]
    norm_num
  have h11 : Int.toNat 11 = 11 := rfl
  norm_num [calculateNiceScale, calculateNiceScaleQ, nicePadding, nicePaddedMin,
    niceStepOf, snapMantissa, round4, round_eq, hlog, hceil, List.range_succ, h11]

/-- C7, counterexample: at the finite bounds min = 0, max = 0.00015 the
first two stored ticks are both 0, so consecutive ticks do NOT differ by
scale.step (= 2.5e-5); and at min = 199/220, max = 1979/220 the tick list
has 11 entries, beyond the claimed "about 9". -/
theorem C7_tick_props_cex :
    ((calculateNiceScale (.num 0) (.num (3/20000)) false).ticks.getD 1 0
      - (calculateNiceScale (.num 0) (.num (3/20000)) false).ticks.getD 0 0
      ≠ (calculateNiceScale (.num 0) (.num (3/20000)) false).step) ∧
    1 < (calculateNiceScale (.num 0) (.num (3/20000)) false).ticks.length ∧
    (calculateNiceScale (.num (199/220)) (.num (1979/220)) false).ticks.length = 11 := by
  rw [nsEval1, nsEval2]
  norm_num [List.getD]

end MotionTracker
